import Mathlib

/-!
Verification of the multipass SSHFS mount bootstrap sequence.

The repository excerpt supplies the unit tests of the mount bootstrapper
(`src/tests/test_sshfsmount.cpp`) but not the bootstrapper's own source
(`sshfs_mount.cpp` / `utils.cpp`).  The definitions below are therefore
modelled from the specification's description of the bootstrap sequence
(stage list, exact remote command strings, output parsers, error taxonomy)
and checked against the behaviour the tests pin down.
-/

namespace Multipass

/-- Result of one remote command execution: an exit status and the raw
text output, as described by the spec's RemoteCommandResult. -/
structure RemoteResult where
  exitStatus : Nat
  output : String
  deriving DecidableEq

/-- A deterministic remote host: each command string yields one result.
The bootstrap issues each command at most once, so determinism is harmless. -/
abbrev Remote : Type := String → RemoteResult

/-- Logging severities used by the component. -/
inductive Level where
  | debug
  | info
  | warning
  deriving DecidableEq

/-- One structured log record: (severity, component tag, message). -/
structure LogEntry where
  level : Level
  category : String
  message : String
  deriving DecidableEq

/-- The error taxonomy of the mount component: the distinct helper-missing
error (SSHFSMissingError), generic runtime/stage failures, and the
invalid-argument error for identity parse failures. -/
inductive MountError where
  | sshfsMissing
  | runtimeError (msg : String)
  | invalidArgument (msg : String)
  deriving DecidableEq

/-! ### Character-list utilities

Core `String.splitOn` and friends are defined by well-founded recursion
and do not reduce inside the kernel, so the parsers below work on the
underlying character lists with structural recursion. -/

/-- Split a character list on a separator character (`String.splitOn`
semantics for a one-character separator). -/
def splitOnChar (sep : Char) : List Char → List (List Char)
  | [] => [[]]
  | c :: rest =>
    if c = sep then [] :: splitOnChar sep rest
    else
      match splitOnChar sep rest with
      | [] => [[c]]
      | h :: t => (c :: h) :: t

/-- Split a character list at the first occurrence of a separator:
`some (before, after)` when the separator occurs, `none` otherwise. -/
def splitFirstChar (sep : Char) : List Char → Option (List Char × List Char)
  | [] => none
  | c :: rest =>
    if c = sep then some ([], rest)
    else
      match splitFirstChar sep rest with
      | none => none
      | some (k, v) => some (c :: k, v)

/-- The remainder after the first occurrence of the token `tok`, when the
token occurs at all. -/
def dropThroughToken (tok : List Char) : List Char → Option (List Char)
  | [] => none
  | c :: rest =>
    if tok.isPrefixOf (c :: rest) then some (List.drop tok.length (c :: rest))
    else dropThroughToken tok rest

/-- Drop trailing whitespace (newline included). -/
def trimTrailingList (l : List Char) : List Char :=
  (l.reverse.dropWhile Char.isWhitespace).reverse

/-- Drop leading and trailing whitespace. -/
def trimList (l : List Char) : List Char :=
  trimTrailingList (l.dropWhile Char.isWhitespace)

/-- A non-empty all-decimal-digit character list. -/
def allDigits (l : List Char) : Bool :=
  !l.isEmpty && l.all Char.isDigit

/-- Base-10 value of a digit list. -/
def digitsToNat (l : List Char) : Nat :=
  l.foldl (fun n c => n * 10 + (c.toNat - 48)) 0

/-- Whether `pat` occurs as a (contiguous) substring of `s`. -/
def hasSubstr (s pat : String) : Bool :=
  (dropThroughToken pat.data s.data).isSome

/-! ### Output parsers (spec section 4.3) -/

/-- Modelled from the spec: the integer parser for `id -u` / `id -g`
output (sshfs_mount.cpp is absent from the excerpt).  Trims trailing
whitespace, then requires the whole remainder to be an unsigned base-10
integer; anything else is a parse failure. -/
def parseId (out : String) : Option Nat :=
  let t := trimTrailingList out.data
  if allDigits t then some (digitsToNat t) else none

/-- Modelled from the spec: the path-anchor parser (sshfs_mount.cpp is
absent).  Trims the trailing newline and guarantees a trailing slash. -/
def parseAnchor (out : String) : String :=
  let t := trimTrailingList out.data
  if t.reverse.head? = some '/' then ⟨t⟩ else ⟨t ++ ['/']⟩

/-- Modelled from the spec: the KEY=VALUE line parser for the helper
environment query output (sshfs_mount.cpp is absent).  Splits lines on
the first `=`, ignores blank lines; a line with no `=` contributes
nothing. -/
def parseEnvPairs (s : String) : List (String × String) :=
  (splitOnChar '\n' s.data).filterMap fun line =>
    if line.isEmpty then none
    else
      match splitFirstChar '=' line with
      | none => none
      | some (k, v) => some (⟨k⟩, ⟨v⟩)

/-- Look a key up in parsed KEY=VALUE output; the last occurrence wins. -/
def envLookup (s key : String) : Option String :=
  (parseEnvPairs s).foldl (fun acc kv => if kv.1 = key then some kv.2 else acc) none

/-- Outcome of parsing a FUSE version report. -/
inductive FuseParse where
  | noToken
  | blank
  | malformed (raw : String)
  | version (major minor patch : Nat)
  deriving DecidableEq

/-- Modelled from the spec: the FUSE version parser (sshfs_mount.cpp is
absent).  Locates the literal token "version:" case-sensitively, takes
the remainder of the line, trims whitespace; an empty remainder is the
soft "blank" outcome, otherwise the remainder splits on `.` into up to
three components which must all be numeric, else the parse is the fatal
"malformed" outcome.  A missing token is the fatal structural outcome. -/
def parseFuseVersion (out : String) : FuseParse :=
  match dropThroughToken "version:".data out.data with
  | none => .noToken
  | some rest =>
    let v := trimList (rest.takeWhile (fun c => c ≠ '\n'))
    if v.isEmpty then .blank
    else
      match (splitOnChar '.' v).take 3 with
      | [a] =>
        if allDigits a then .version (digitsToNat a) 0 0 else .malformed ⟨v⟩
      | [a, b] =>
        if allDigits a && allDigits b then .version (digitsToNat a) (digitsToNat b) 0
        else .malformed ⟨v⟩
      | [a, b, c] =>
        if allDigits a && allDigits b && allDigits c then
          .version (digitsToNat a) (digitsToNat b) (digitsToNat c)
        else .malformed ⟨v⟩
      | _ => .malformed ⟨v⟩

/-! ### Remote command strings (spec section 6, exact forms) -/

/-- The helper environment query. -/
def envQueryCmd : String := "snap run multipass-sshfs.env"

/-- The privileged environment-qualified FUSE version query. -/
def versionCmd (ldPath root : String) : String :=
  "sudo env LD_LIBRARY_PATH=" ++ ldPath ++ " " ++ root ++ "/bin/sshfs -V"

/-- The anchor-resolution shell script: walk up from the absolute target
until an existing directory is found, echo it with a trailing slash. -/
def anchorCmd (absTarget : String) : String :=
  "sudo /bin/bash -c 'P=\"" ++ absTarget ++ "\"; while [ ! -d \"$P/\" ]; do P=${P%/*}; done; echo $P/'"

/-- The directory-creation command, run from the anchor directory. -/
def mkdirCmd (anchor relTarget : String) : String :=
  "sudo /bin/bash -c 'cd \"" ++ anchor ++ "\" && mkdir -p \"" ++ relTarget ++ "\"'"

/-- The ownership-fix command, run from the anchor directory. -/
def chownCmd (anchor : String) (uid gid : Nat) (relTarget : String) : String :=
  "sudo /bin/bash -c 'cd \"" ++ anchor ++ "\" && chown -R " ++ toString uid ++ ":" ++
    toString gid ++ " " ++ relTarget ++ "'"

/-- The final mount command; `-o nonempty` is appended exactly when the
effective FUSE version is below 3. -/
def mountCmd (ldPath root : String) (below3 : Bool) (source target : String) : String :=
  "sudo env LD_LIBRARY_PATH=" ++ ldPath ++ " " ++ root ++
    "/bin/sshfs -o slave -o transform_symlinks -o allow_other" ++
    (if below3 then " -o nonempty" else "") ++
    " :\"" ++ source ++ "\" \"" ++ target ++ "\""

/-! ### The bootstrap stages (spec section 4.2)

Each stage returns the list of remote commands it issued together with
its outcome; the bootstrapper concatenates the traces and short-circuits
on the first failure.  All of these are modelled from the spec, since
sshfs_mount.cpp is not part of the excerpt. -/

/-- Modelled from the spec: stages 1-2, the helper environment query.
A nonzero exit means the helper is missing; the library path and the
installation root are required variables of the `KEY=VALUE` output. -/
def envStage (r : Remote) : List String × Except MountError (String × String) :=
  if (r envQueryCmd).exitStatus ≠ 0 then ([envQueryCmd], .error .sshfsMissing)
  else
    match envLookup (r envQueryCmd).output "LD_LIBRARY_PATH",
        envLookup (r envQueryCmd).output "SNAP" with
    | some ld, some root => ([envQueryCmd], .ok (ld, root))
    | _, _ => ([envQueryCmd], .error (.runtimeError "missing environment variable"))

/-- The warning/debug log pair emitted for a blank FUSE version string. -/
def blankVersionLogs (out : String) : List LogEntry :=
  [⟨.warning, "sshfs mount", "Unable to parse the FUSE library version"⟩,
   ⟨.debug, "sshfs mount",
     "Unable to parse the FUSE library version: " ++ (⟨trimTrailingList out.data⟩ : String)⟩]

/-- Modelled from the spec: stage 3, the FUSE version query.  The result
is whether the effective version is below 3: a blank version string logs
a warning and a debug record and counts as below 3; a structurally
malformed version (missing token, or a non-numeric component) is fatal. -/
def versionStage (r : Remote) (ldPath root : String) :
    List String × List LogEntry × Except MountError Bool :=
  let c := versionCmd ldPath root
  if (r c).exitStatus ≠ 0 then ([c], [], .error (.runtimeError "sshfs -V"))
  else
    match parseFuseVersion (r c).output with
    | .noToken =>
      ([c], [], .error (.runtimeError
        ("Unable to parse the FUSE library version: " ++ (⟨trimTrailingList (r c).output.data⟩ : String))))
    | .malformed raw =>
      ([c], [], .error (.runtimeError ("Unable to parse the FUSE library version: " ++ raw)))
    | .blank => ([c], blankVersionLogs (r c).output, .ok true)
    | .version major _ _ => ([c], [], .ok (decide (major < 3)))

/-- Modelled from the spec: stage 4, remote identity resolution.  `id -u`
then `id -g`; each output must parse as a non-negative integer, and a
non-numeric output is an invalid-argument error naming the culprit. -/
def identityStage (r : Remote) : List String × Except MountError (Nat × Nat) :=
  if (r "id -u").exitStatus ≠ 0 then (["id -u"], .error (.runtimeError "id -u"))
  else
    match parseId (r "id -u").output with
    | none => (["id -u"], .error (.invalidArgument ("invalid user id: " ++ (r "id -u").output)))
    | some uid =>
      if (r "id -g").exitStatus ≠ 0 then (["id -u", "id -g"], .error (.runtimeError "id -g"))
      else
        match parseId (r "id -g").output with
        | none =>
          (["id -u", "id -g"], .error (.invalidArgument ("invalid group id: " ++ (r "id -g").output)))
        | some gid => (["id -u", "id -g"], .ok (uid, gid))

/-- The absolute target path: an already-absolute target is kept, a
relative one is anchored under the remote home reported by `pwd`. -/
def absoluteTarget (pwdOut target : String) : String :=
  if target.data.head? = some '/' then target
  else (⟨trimTrailingList pwdOut.data⟩ : String) ++ "/" ++ target

/-- Modelled from the spec: stage 5, working-directory and anchor
resolution.  `pwd` gives the remote home; a relative target is anchored
under it; the anchor script returns the deepest existing ancestor with a
trailing slash.  The result is (anchor, absolute target). -/
def pathStage (r : Remote) (target : String) : List String × Except MountError (String × String) :=
  if (r "pwd").exitStatus ≠ 0 then (["pwd"], .error (.runtimeError "pwd"))
  else
    let absT := absoluteTarget (r "pwd").output target
    let c := anchorCmd absT
    if (r c).exitStatus ≠ 0 then (["pwd", c], .error (.runtimeError "finding mount path"))
    else (["pwd", c], .ok (parseAnchor (r c).output, absT))

/-- The target path relative to the anchor directory. -/
def relativeTo (absT anchor : String) : String :=
  if anchor.data.isPrefixOf absT.data then ⟨absT.data.drop anchor.data.length⟩ else absT

/-- Modelled from the spec: stage 6, create and own the target directory.
`mkdir -p` then `chown`, each from the anchor directory; either failing
aborts with a runtime error naming the failed operation, and a `mkdir`
failure issues no `chown`. -/
def dirStage (r : Remote) (anchor : String) (uid gid : Nat) (relTarget : String) :
    List String × Except MountError Unit :=
  let c1 := mkdirCmd anchor relTarget
  if (r c1).exitStatus ≠ 0 then ([c1], .error (.runtimeError "mkdir"))
  else
    let c2 := chownCmd anchor uid gid relTarget
    if (r c2).exitStatus ≠ 0 then ([c1, c2], .error (.runtimeError "chown"))
    else ([c1, c2], .ok ())

/-- Modelled from the spec: stage 7, invoke the mount helper; a nonzero
exit aborts with a runtime error. -/
def mountStage (r : Remote) (ldPath root : String) (below3 : Bool) (source target : String) :
    List String × Except MountError Unit :=
  let c := mountCmd ldPath root below3 source target
  if (r c).exitStatus ≠ 0 then ([c], .error (.runtimeError "sshfs"))
  else ([c], .ok ())

/-- Modelled from the spec: the whole bootstrap sequence, stages in the
fixed order of section 4.2, short-circuiting on the first failure.
Returns the full ordered trace of issued remote commands, the log
records, and the outcome. -/
def bootstrap (r : Remote) (source target : String) :
    List String × List LogEntry × Except MountError Unit :=
  match envStage r with
  | (t1, .error e) => (t1, [], .error e)
  | (t1, .ok (ld, root)) =>
    match versionStage r ld root with
    | (t2, lg, .error e) => (t1 ++ t2, lg, .error e)
    | (t2, lg, .ok below3) =>
      match identityStage r with
      | (t3, .error e) => (t1 ++ t2 ++ t3, lg, .error e)
      | (t3, .ok (uid, gid)) =>
        match pathStage r target with
        | (t4, .error e) => (t1 ++ t2 ++ t3 ++ t4, lg, .error e)
        | (t4, .ok (anchor, absT)) =>
          match dirStage r anchor uid gid (relativeTo absT anchor) with
          | (t5, .error e) => (t1 ++ t2 ++ t3 ++ t4 ++ t5, lg, .error e)
          | (t5, .ok _) =>
            match mountStage r ld root below3 source target with
            | (t6, res) => (t1 ++ t2 ++ t3 ++ t4 ++ t5 ++ t6, lg, res)

/-! ### Helper installation (utils: install_sshfs_for) -/

/-- Outcome of one remote command during installation: a normal exit code
or the bounded installation timeout elapsing. -/
inductive ExecOutcome where
  | exited (code : Nat)
  | timedOut
  deriving DecidableEq

/-- The info-level record logged when installation times out. -/
def timeoutLog (name : String) : LogEntry :=
  ⟨.info, "utils", "Timeout while installing 'sshfs' in '" ++ name ++ "'"⟩

/-- Modelled from the spec: the sshfs installation flow of
`mp::utils::install_sshfs_for` (utils.cpp is absent from the excerpt).
Probe `which snap`, then `[ -e /snap ]`; a nonzero exit of either is a
generic runtime/stage failure (spec section 7 taxonomy).  Then run
`sudo snap install multipass-sshfs`; a nonzero exit is the distinct
helper-missing error.  A timeout is not fatal: it is logged once at info
level and the function returns without an error. -/
def install_sshfs_for (name : String) (r : String → ExecOutcome) :
    List String × List LogEntry × Option MountError :=
  match r "which snap" with
  | .timedOut => (["which snap"], [timeoutLog name], none)
  | .exited c1 =>
    if c1 ≠ 0 then
      (["which snap"], [],
        some (.runtimeError ("Snap support is not installed in " ++ name)))
    else
      match r "[ -e /snap ]" with
      | .timedOut => (["which snap", "[ -e /snap ]"], [timeoutLog name], none)
      | .exited c2 =>
        if c2 ≠ 0 then
          (["which snap", "[ -e /snap ]"], [],
            some (.runtimeError ("Classic snap support is not enabled in " ++ name)))
        else
          match r "sudo snap install multipass-sshfs" with
          | .timedOut =>
            (["which snap", "[ -e /snap ]", "sudo snap install multipass-sshfs"],
              [timeoutLog name], none)
          | .exited c3 =>
            if c3 ≠ 0 then
              (["which snap", "[ -e /snap ]", "sudo snap install multipass-sshfs"], [],
                some .sshfsMissing)
            else
              (["which snap", "[ -e /snap ]", "sudo snap install multipass-sshfs"], [], none)

/-! ### Lifecycle controller (spec section 4.4) -/

/-- External signals the post-mount wait can observe: the remote
filesystem server exiting (session end) or a local stop request. -/
inductive LifecycleEvent where
  | sessionEnd
  | stopRequested
  deriving DecidableEq

/-- The wait's state: still blocking the calling thread, or returned
cleanly to the caller. -/
inductive LifecycleState where
  | waiting
  | returned
  deriving DecidableEq

/-- Modelled from the spec: the post-mount lifecycle wait
(sshfs_mount.cpp is absent), as a step relation driven by an optional
observed event per step.  With no event the wait keeps blocking; a
session-end (or stop) signal releases it, and the released state is
absorbing.  The wait has no error outcome: release is always clean. -/
def lifecycleStep : LifecycleState → Option LifecycleEvent → LifecycleState
  | .waiting, none => .waiting
  | .waiting, some _ => .returned
  | .returned, _ => .returned

/-- The state of the lifecycle wait after observing a sequence of steps,
starting from the blocking state entered after a successful mount. -/
def lifecycleRun (evs : List (Option LifecycleEvent)) : LifecycleState :=
  evs.foldl lifecycleStep .waiting

/-! ### Stage evaluation lemmas

Generic helper lemmas evaluating each stage from the results the remote
host returns for the stage's commands. -/

theorem envStage_ok (r : Remote) (out ld root : String)
    (h : r envQueryCmd = ⟨0, out⟩)
    (hld : envLookup out "LD_LIBRARY_PATH" = some ld)
    (hsnap : envLookup out "SNAP" = some root) :
    envStage r = ([envQueryCmd], .ok (ld, root)) := by
  simp only [envStage, h, hld, hsnap]
  rfl

theorem versionStage_of_version (r : Remote) (ldPath root out : String) (a b c : Nat)
    (h : r (versionCmd ldPath root) = ⟨0, out⟩)
    (hv : parseFuseVersion out = .version a b c) :
    versionStage r ldPath root = ([versionCmd ldPath root], [], .ok (decide (a < 3))) := by
  simp only [versionStage, h, hv]
  rfl

theorem versionStage_of_malformed (r : Remote) (ldPath root out raw : String)
    (h : r (versionCmd ldPath root) = ⟨0, out⟩)
    (hv : parseFuseVersion out = .malformed raw) :
    versionStage r ldPath root =
      ([versionCmd ldPath root], [],
        .error (.runtimeError ("Unable to parse the FUSE library version: " ++ raw))) := by
  simp only [versionStage, h, hv]
  rfl

theorem versionStage_of_blank (r : Remote) (ldPath root out : String)
    (h : r (versionCmd ldPath root) = ⟨0, out⟩)
    (hv : parseFuseVersion out = .blank) :
    versionStage r ldPath root =
      ([versionCmd ldPath root], blankVersionLogs out, .ok true) := by
  simp only [versionStage, h, hv]
  rfl

theorem identityStage_ok (r : Remote) (uOut gOut : String) (uid gid : Nat)
    (hu : r "id -u" = ⟨0, uOut⟩) (hg : r "id -g" = ⟨0, gOut⟩)
    (hup : parseId uOut = some uid) (hgp : parseId gOut = some gid) :
    identityStage r = (["id -u", "id -g"], .ok (uid, gid)) := by
  simp only [identityStage, hu, hg, hup, hgp]
  rfl

theorem identityStage_bad_uid (r : Remote) (uOut : String)
    (hu : r "id -u" = ⟨0, uOut⟩) (hup : parseId uOut = none) :
    identityStage r = (["id -u"], .error (.invalidArgument ("invalid user id: " ++ uOut))) := by
  simp only [identityStage, hu, hup]
  rfl

theorem identityStage_bad_gid (r : Remote) (uOut gOut : String) (uid : Nat)
    (hu : r "id -u" = ⟨0, uOut⟩) (hup : parseId uOut = some uid)
    (hg : r "id -g" = ⟨0, gOut⟩) (hgp : parseId gOut = none) :
    identityStage r =
      (["id -u", "id -g"], .error (.invalidArgument ("invalid group id: " ++ gOut))) := by
  simp only [identityStage, hu, hup, hg, hgp]
  rfl

theorem pathStage_ok (r : Remote) (target pwdOut anchorOut : String)
    (hp : r "pwd" = ⟨0, pwdOut⟩)
    (ha : r (anchorCmd (absoluteTarget pwdOut target)) = ⟨0, anchorOut⟩) :
    pathStage r target =
      (["pwd", anchorCmd (absoluteTarget pwdOut target)],
        .ok (parseAnchor anchorOut, absoluteTarget pwdOut target)) := by
  simp only [pathStage, hp, ha]
  rfl

theorem dirStage_ok (r : Remote) (anchor relTarget o1 o2 : String) (uid gid : Nat)
    (h1 : r (mkdirCmd anchor relTarget) = ⟨0, o1⟩)
    (h2 : r (chownCmd anchor uid gid relTarget) = ⟨0, o2⟩) :
    dirStage r anchor uid gid relTarget =
      ([mkdirCmd anchor relTarget, chownCmd anchor uid gid relTarget], .ok ()) := by
  simp only [dirStage, h1, h2]
  rfl

theorem dirStage_mkdir_fails (r : Remote) (anchor relTarget : String) (uid gid : Nat)
    (res : RemoteResult) (h1 : r (mkdirCmd anchor relTarget) = res)
    (hne : res.exitStatus ≠ 0) :
    dirStage r anchor uid gid relTarget =
      ([mkdirCmd anchor relTarget], .error (.runtimeError "mkdir")) := by
  simp only [dirStage, h1, hne, if_pos, ne_eq]
  simp [hne]

theorem mountStage_ok (r : Remote) (ldPath root source target out : String) (below3 : Bool)
    (h : r (mountCmd ldPath root below3 source target) = ⟨0, out⟩) :
    mountStage r ldPath root below3 source target =
      ([mountCmd ldPath root below3 source target], .ok ()) := by
  simp only [mountStage, h]
  rfl

/-! ### Bootstrap composition lemmas -/

theorem bootstrap_all_ok (r : Remote) (source target ld root anchor absT : String)
    (below3 : Bool) (uid gid : Nat) (t1 t2 t3 t4 t5 t6 : List String)
    (lg : List LogEntry) (res : Except MountError Unit)
    (henv : envStage r = (t1, .ok (ld, root)))
    (hver : versionStage r ld root = (t2, lg, .ok below3))
    (hid : identityStage r = (t3, .ok (uid, gid)))
    (hpath : pathStage r target = (t4, .ok (anchor, absT)))
    (hdir : dirStage r anchor uid gid (relativeTo absT anchor) = (t5, .ok ()))
    (hmount : mountStage r ld root below3 source target = (t6, res)) :
    bootstrap r source target = (t1 ++ t2 ++ t3 ++ t4 ++ t5 ++ t6, lg, res) := by
  simp only [bootstrap, henv, hver, hid, hpath, hdir, hmount]

theorem bootstrap_version_fails (r : Remote) (source target ld root : String)
    (t1 t2 : List String) (lg : List LogEntry) (e : MountError)
    (henv : envStage r = (t1, .ok (ld, root)))
    (hver : versionStage r ld root = (t2, lg, .error e)) :
    bootstrap r source target = (t1 ++ t2, lg, .error e) := by
  simp only [bootstrap, henv, hver]

theorem bootstrap_identity_fails (r : Remote) (source target ld root : String)
    (below3 : Bool) (t1 t2 t3 : List String) (lg : List LogEntry) (e : MountError)
    (henv : envStage r = (t1, .ok (ld, root)))
    (hver : versionStage r ld root = (t2, lg, .ok below3))
    (hid : identityStage r = (t3, .error e)) :
    bootstrap r source target = (t1 ++ t2 ++ t3, lg, .error e) := by
  simp only [bootstrap, henv, hver, hid]

theorem bootstrap_dir_fails (r : Remote) (source target ld root anchor absT : String)
    (below3 : Bool) (uid gid : Nat) (t1 t2 t3 t4 t5 : List String)
    (lg : List LogEntry) (e : MountError)
    (henv : envStage r = (t1, .ok (ld, root)))
    (hver : versionStage r ld root = (t2, lg, .ok below3))
    (hid : identityStage r = (t3, .ok (uid, gid)))
    (hpath : pathStage r target = (t4, .ok (anchor, absT)))
    (hdir : dirStage r anchor uid gid (relativeTo absT anchor) = (t5, .error e)) :
    bootstrap r source target = (t1 ++ t2 ++ t3 ++ t4 ++ t5, lg, .error e) := by
  simp only [bootstrap, henv, hver, hid, hpath, hdir]

/-- A full default bootstrap run: default helper environment, a version
report parsing as `a.b.c`, identity 1000/1000, home `/home/ubuntu`,
anchor `/home/ubuntu/`, every required command exiting 0. -/
theorem bootstrap_default_run (r : Remote) (verOut o7 o8 o9 : String) (a b c : Nat)
    (h1 : r envQueryCmd = ⟨0, "LD_LIBRARY_PATH=/foo/bar\nSNAP=/baz\n"⟩)
    (h2 : r (versionCmd "/foo/bar" "/baz") = ⟨0, verOut⟩)
    (hv : parseFuseVersion verOut = .version a b c)
    (h3 : r "id -u" = ⟨0, "1000\n"⟩) (h4 : r "id -g" = ⟨0, "1000\n"⟩)
    (h5 : r "pwd" = ⟨0, "/home/ubuntu\n"⟩)
    (h6 : r (anchorCmd (absoluteTarget "/home/ubuntu\n" "target")) = ⟨0, "/home/ubuntu/\n"⟩)
    (h7 : r (mkdirCmd (parseAnchor "/home/ubuntu/\n")
      (relativeTo (absoluteTarget "/home/ubuntu\n" "target") (parseAnchor "/home/ubuntu/\n"))) = ⟨0, o7⟩)
    (h8 : r (chownCmd (parseAnchor "/home/ubuntu/\n") 1000 1000
      (relativeTo (absoluteTarget "/home/ubuntu\n" "target") (parseAnchor "/home/ubuntu/\n"))) = ⟨0, o8⟩)
    (h9 : r (mountCmd "/foo/bar" "/baz" (decide (a < 3)) "source" "target") = ⟨0, o9⟩) :
    bootstrap r "source" "target" =
      ([envQueryCmd, versionCmd "/foo/bar" "/baz", "id -u", "id -g", "pwd",
        anchorCmd (absoluteTarget "/home/ubuntu\n" "target"),
        mkdirCmd (parseAnchor "/home/ubuntu/\n")
          (relativeTo (absoluteTarget "/home/ubuntu\n" "target") (parseAnchor "/home/ubuntu/\n")),
        chownCmd (parseAnchor "/home/ubuntu/\n") 1000 1000
          (relativeTo (absoluteTarget "/home/ubuntu\n" "target") (parseAnchor "/home/ubuntu/\n")),
        mountCmd "/foo/bar" "/baz" (decide (a < 3)) "source" "target"],
       [], .ok ()) := by
  have henv := envStage_ok r _ "/foo/bar" "/baz" h1 (by decide) (by decide)
  have hver := versionStage_of_version r "/foo/bar" "/baz" _ a b c h2 hv
  have hid := identityStage_ok r _ _ 1000 1000 h3 h4 (by decide) (by decide)
  have hpath := pathStage_ok r "target" _ _ h5 h6
  have hdir := dirStage_ok r (parseAnchor "/home/ubuntu/\n")
    (relativeTo (absoluteTarget "/home/ubuntu\n" "target") (parseAnchor "/home/ubuntu/\n"))
    _ _ 1000 1000 h7 h8
  have hmount := mountStage_ok r "/foo/bar" "/baz" "source" "target" _ (decide (a < 3)) h9
  exact (bootstrap_all_ok r "source" "target" "/foo/bar" "/baz"
    (parseAnchor "/home/ubuntu/\n") (absoluteTarget "/home/ubuntu\n" "target")
    (decide (a < 3)) 1000 1000 _ _ _ _ _ _ _ _
    henv hver hid hpath hdir hmount).trans rfl

/-- A full default bootstrap run whose version report is blank after the
"version:" token: the run completes, logging the warning/debug pair and
treating the version as below 3. -/
theorem bootstrap_blank_version_run (r : Remote) (verOut o7 o8 o9 : String)
    (h1 : r envQueryCmd = ⟨0, "LD_LIBRARY_PATH=/foo/bar\nSNAP=/baz\n"⟩)
    (h2 : r (versionCmd "/foo/bar" "/baz") = ⟨0, verOut⟩)
    (hv : parseFuseVersion verOut = .blank)
    (h3 : r "id -u" = ⟨0, "1000\n"⟩) (h4 : r "id -g" = ⟨0, "1000\n"⟩)
    (h5 : r "pwd" = ⟨0, "/home/ubuntu\n"⟩)
    (h6 : r (anchorCmd (absoluteTarget "/home/ubuntu\n" "target")) = ⟨0, "/home/ubuntu/\n"⟩)
    (h7 : r (mkdirCmd (parseAnchor "/home/ubuntu/\n")
      (relativeTo (absoluteTarget "/home/ubuntu\n" "target") (parseAnchor "/home/ubuntu/\n"))) = ⟨0, o7⟩)
    (h8 : r (chownCmd (parseAnchor "/home/ubuntu/\n") 1000 1000
      (relativeTo (absoluteTarget "/home/ubuntu\n" "target") (parseAnchor "/home/ubuntu/\n"))) = ⟨0, o8⟩)
    (h9 : r (mountCmd "/foo/bar" "/baz" true "source" "target") = ⟨0, o9⟩) :
    bootstrap r "source" "target" =
      ([envQueryCmd, versionCmd "/foo/bar" "/baz", "id -u", "id -g", "pwd",
        anchorCmd (absoluteTarget "/home/ubuntu\n" "target"),
        mkdirCmd (parseAnchor "/home/ubuntu/\n")
          (relativeTo (absoluteTarget "/home/ubuntu\n" "target") (parseAnchor "/home/ubuntu/\n")),
        chownCmd (parseAnchor "/home/ubuntu/\n") 1000 1000
          (relativeTo (absoluteTarget "/home/ubuntu\n" "target") (parseAnchor "/home/ubuntu/\n")),
        mountCmd "/foo/bar" "/baz" true "source" "target"],
       blankVersionLogs verOut, .ok ()) := by
  have henv := envStage_ok r _ "/foo/bar" "/baz" h1 (by decide) (by decide)
  have hver := versionStage_of_blank r "/foo/bar" "/baz" _ h2 hv
  have hid := identityStage_ok r _ _ 1000 1000 h3 h4 (by decide) (by decide)
  have hpath := pathStage_ok r "target" _ _ h5 h6
  have hdir := dirStage_ok r (parseAnchor "/home/ubuntu/\n")
    (relativeTo (absoluteTarget "/home/ubuntu\n" "target") (parseAnchor "/home/ubuntu/\n"))
    _ _ 1000 1000 h7 h8
  have hmount := mountStage_ok r "/foo/bar" "/baz" "source" "target" _ true h9
  exact (bootstrap_all_ok r "source" "target" "/foo/bar" "/baz"
    (parseAnchor "/home/ubuntu/\n") (absoluteTarget "/home/ubuntu\n" "target")
    true 1000 1000 _ _ _ _ _ _ _ _
    henv hver hid hpath hdir hmount).trans rfl

/-! ### Concrete remote hosts used as witnesses -/

/-- A remote host answering exactly as in the spec's end-to-end
scenarios, with a configurable version report. -/
def scenarioRemote (verOut : String) : Remote := fun cmd =>
  if cmd = "snap run multipass-sshfs.env" then ⟨0, "LD_LIBRARY_PATH=/foo/bar\nSNAP=/baz\n"⟩
  else if cmd = "sudo env LD_LIBRARY_PATH=/foo/bar /baz/bin/sshfs -V" then ⟨0, verOut⟩
  else if cmd = "id -u" then ⟨0, "1000\n"⟩
  else if cmd = "id -g" then ⟨0, "1000\n"⟩
  else if cmd = "pwd" then ⟨0, "/home/ubuntu\n"⟩
  else if cmd = "sudo /bin/bash -c 'P=\"/home/ubuntu/target\"; while [ ! -d \"$P/\" ]; do P=${P%/*}; done; echo $P/'" then
    ⟨0, "/home/ubuntu/\n"⟩
  else ⟨0, "\n"⟩

/-- The scenario host except that `id -u` reports a non-numeric user. -/
def badUidRemote : Remote := fun cmd =>
  if cmd = "id -u" then ⟨0, "ubuntu\n"⟩
  else scenarioRemote "FUSE library version: 3.0.0\n" cmd

/-- The scenario host except that `id -g` reports a non-numeric group. -/
def badGidRemote : Remote := fun cmd =>
  if cmd = "id -g" then ⟨0, "ubuntu\n"⟩
  else scenarioRemote "FUSE library version: 3.0.0\n" cmd

/-- The scenario host except that the mkdir command exits nonzero. -/
def mkdirFailRemote : Remote := fun cmd =>
  if cmd = "sudo /bin/bash -c 'cd \"/home/ubuntu/\" && mkdir -p \"target\"'" then ⟨1, "\n"⟩
  else scenarioRemote "FUSE library version: 3.0.0\n" cmd

/-- An installation host on which every step succeeds promptly. -/
def installOkRemote : String → ExecOutcome := fun _ => .exited 0

/-- An installation host with no `snap` binary. -/
def whichSnapFailRemote : String → ExecOutcome := fun cmd =>
  if cmd = "which snap" then .exited 1 else .exited 0

/-- An installation host without the /snap classic-support entry. -/
def snapDirFailRemote : String → ExecOutcome := fun cmd =>
  if cmd = "[ -e /snap ]" then .exited 1 else .exited 0

/-- An installation host whose snap install step fails. -/
def snapInstallFailRemote : String → ExecOutcome := fun cmd =>
  if cmd = "sudo snap install multipass-sshfs" then .exited 1 else .exited 0

/-- An installation host whose snap install step exceeds the timeout. -/
def snapInstallTimeoutRemote : String → ExecOutcome := fun cmd =>
  if cmd = "sudo snap install multipass-sshfs" then .timedOut else .exited 0

/-! ### Claim theorems -/

/-- C1: for every bootstrap run with relative target "target", remote
home /home/ubuntu, uid/gid 1000/1000 and FUSE version 3.0.0, the remote
commands are issued strictly in the fixed stage order (helper environment
query, version query, id -u, id -g, pwd, anchor-resolution script, mkdir,
chown, final mount), each command string byte-for-byte as in the spec's
interface list, with no stage reordered or skipped. -/
theorem bootstrap_fixed_stage_order (r : Remote) (o7 o8 o9 : String)
    (h1 : r "snap run multipass-sshfs.env" = ⟨0, "LD_LIBRARY_PATH=/foo/bar\nSNAP=/baz\n"⟩)
    (h2 : r "sudo env LD_LIBRARY_PATH=/foo/bar /baz/bin/sshfs -V" = ⟨0, "FUSE library version: 3.0.0\n"⟩)
    (h3 : r "id -u" = ⟨0, "1000\n"⟩)
    (h4 : r "id -g" = ⟨0, "1000\n"⟩)
    (h5 : r "pwd" = ⟨0, "/home/ubuntu\n"⟩)
    (h6 : r "sudo /bin/bash -c 'P=\"/home/ubuntu/target\"; while [ ! -d \"$P/\" ]; do P=${P%/*}; done; echo $P/'" = ⟨0, "/home/ubuntu/\n"⟩)
    (h7 : r "sudo /bin/bash -c 'cd \"/home/ubuntu/\" && mkdir -p \"target\"'" = ⟨0, o7⟩)
    (h8 : r "sudo /bin/bash -c 'cd \"/home/ubuntu/\" && chown -R 1000:1000 target'" = ⟨0, o8⟩)
    (h9 : r "sudo env LD_LIBRARY_PATH=/foo/bar /baz/bin/sshfs -o slave -o transform_symlinks -o allow_other :\"source\" \"target\"" = ⟨0, o9⟩) :
    bootstrap r "source" "target" =
      (["snap run multipass-sshfs.env",
        "sudo env LD_LIBRARY_PATH=/foo/bar /baz/bin/sshfs -V",
        "id -u", "id -g", "pwd",
        "sudo /bin/bash -c 'P=\"/home/ubuntu/target\"; while [ ! -d \"$P/\" ]; do P=${P%/*}; done; echo $P/'",
        "sudo /bin/bash -c 'cd \"/home/ubuntu/\" && mkdir -p \"target\"'",
        "sudo /bin/bash -c 'cd \"/home/ubuntu/\" && chown -R 1000:1000 target'",
        "sudo env LD_LIBRARY_PATH=/foo/bar /baz/bin/sshfs -o slave -o transform_symlinks -o allow_other :\"source\" \"target\""],
       [], .ok ()) := by
  rw [show ("snap run multipass-sshfs.env" : String) = envQueryCmd from rfl] at h1
  rw [show ("sudo env LD_LIBRARY_PATH=/foo/bar /baz/bin/sshfs -V" : String) =
    versionCmd "/foo/bar" "/baz" from rfl] at h2
  rw [show ("sudo /bin/bash -c 'P=\"/home/ubuntu/target\"; while [ ! -d \"$P/\" ]; do P=${P%/*}; done; echo $P/'" : String) =
    anchorCmd (absoluteTarget "/home/ubuntu\n" "target") from rfl] at h6
  rw [show ("sudo /bin/bash -c 'cd \"/home/ubuntu/\" && mkdir -p \"target\"'" : String) =
    mkdirCmd (parseAnchor "/home/ubuntu/\n")
      (relativeTo (absoluteTarget "/home/ubuntu\n" "target") (parseAnchor "/home/ubuntu/\n")) from rfl] at h7
  rw [show ("sudo /bin/bash -c 'cd \"/home/ubuntu/\" && chown -R 1000:1000 target'" : String) =
    chownCmd (parseAnchor "/home/ubuntu/\n") 1000 1000
      (relativeTo (absoluteTarget "/home/ubuntu\n" "target") (parseAnchor "/home/ubuntu/\n")) from rfl] at h8
  rw [show ("sudo env LD_LIBRARY_PATH=/foo/bar /baz/bin/sshfs -o slave -o transform_symlinks -o allow_other :\"source\" \"target\"" : String) =
    mountCmd "/foo/bar" "/baz" (decide (3 < 3)) "source" "target" from rfl] at h9
  exact (bootstrap_default_run r "FUSE library version: 3.0.0\n" o7 o8 o9 3 0 0
    h1 h2 (by decide) h3 h4 h5 h6 h7 h8 h9).trans rfl

/-- C1 witness: the scenario host runs the nine commands in order. -/
theorem bootstrap_fixed_stage_order_witness :
    bootstrap (scenarioRemote "FUSE library version: 3.0.0\n") "source" "target" =
      (["snap run multipass-sshfs.env",
        "sudo env LD_LIBRARY_PATH=/foo/bar /baz/bin/sshfs -V",
        "id -u", "id -g", "pwd",
        "sudo /bin/bash -c 'P=\"/home/ubuntu/target\"; while [ ! -d \"$P/\" ]; do P=${P%/*}; done; echo $P/'",
        "sudo /bin/bash -c 'cd \"/home/ubuntu/\" && mkdir -p \"target\"'",
        "sudo /bin/bash -c 'cd \"/home/ubuntu/\" && chown -R 1000:1000 target'",
        "sudo env LD_LIBRARY_PATH=/foo/bar /baz/bin/sshfs -o slave -o transform_symlinks -o allow_other :\"source\" \"target\""],
       [], .ok ()) :=
  bootstrap_fixed_stage_order (scenarioRemote "FUSE library version: 3.0.0\n")
    "\n" "\n" "\n" rfl rfl rfl rfl rfl rfl rfl rfl rfl

/-- C2: the final mount command carries the extra "-o nonempty" option
exactly when the effective parsed FUSE version is below 3: a run whose
version report is 2.9.0 issues the mount command with "-o nonempty",
while a run reporting 3.0.0 issues it without, and only the 2.9.0 form
contains the option. -/
theorem mount_nonempty_iff_fuse_below_three (r29 r30 : Remote) (o7 o8 o9 p7 p8 p9 : String)
    (h1 : r29 "snap run multipass-sshfs.env" = ⟨0, "LD_LIBRARY_PATH=/foo/bar\nSNAP=/baz\n"⟩)
    (h2 : r29 "sudo env LD_LIBRARY_PATH=/foo/bar /baz/bin/sshfs -V" = ⟨0, "FUSE library version: 2.9.0\n"⟩)
    (h3 : r29 "id -u" = ⟨0, "1000\n"⟩)
    (h4 : r29 "id -g" = ⟨0, "1000\n"⟩)
    (h5 : r29 "pwd" = ⟨0, "/home/ubuntu\n"⟩)
    (h6 : r29 "sudo /bin/bash -c 'P=\"/home/ubuntu/target\"; while [ ! -d \"$P/\" ]; do P=${P%/*}; done; echo $P/'" = ⟨0, "/home/ubuntu/\n"⟩)
    (h7 : r29 "sudo /bin/bash -c 'cd \"/home/ubuntu/\" && mkdir -p \"target\"'" = ⟨0, o7⟩)
    (h8 : r29 "sudo /bin/bash -c 'cd \"/home/ubuntu/\" && chown -R 1000:1000 target'" = ⟨0, o8⟩)
    (h9 : r29 "sudo env LD_LIBRARY_PATH=/foo/bar /baz/bin/sshfs -o slave -o transform_symlinks -o allow_other -o nonempty :\"source\" \"target\"" = ⟨0, o9⟩)
    (g1 : r30 "snap run multipass-sshfs.env" = ⟨0, "LD_LIBRARY_PATH=/foo/bar\nSNAP=/baz\n"⟩)
    (g2 : r30 "sudo env LD_LIBRARY_PATH=/foo/bar /baz/bin/sshfs -V" = ⟨0, "FUSE library version: 3.0.0\n"⟩)
    (g3 : r30 "id -u" = ⟨0, "1000\n"⟩)
    (g4 : r30 "id -g" = ⟨0, "1000\n"⟩)
    (g5 : r30 "pwd" = ⟨0, "/home/ubuntu\n"⟩)
    (g6 : r30 "sudo /bin/bash -c 'P=\"/home/ubuntu/target\"; while [ ! -d \"$P/\" ]; do P=${P%/*}; done; echo $P/'" = ⟨0, "/home/ubuntu/\n"⟩)
    (g7 : r30 "sudo /bin/bash -c 'cd \"/home/ubuntu/\" && mkdir -p \"target\"'" = ⟨0, p7⟩)
    (g8 : r30 "sudo /bin/bash -c 'cd \"/home/ubuntu/\" && chown -R 1000:1000 target'" = ⟨0, p8⟩)
    (g9 : r30 "sudo env LD_LIBRARY_PATH=/foo/bar /baz/bin/sshfs -o slave -o transform_symlinks -o allow_other :\"source\" \"target\"" = ⟨0, p9⟩) :
    bootstrap r29 "source" "target" =
      (["snap run multipass-sshfs.env",
        "sudo env LD_LIBRARY_PATH=/foo/bar /baz/bin/sshfs -V",
        "id -u", "id -g", "pwd",
        "sudo /bin/bash -c 'P=\"/home/ubuntu/target\"; while [ ! -d \"$P/\" ]; do P=${P%/*}; done; echo $P/'",
        "sudo /bin/bash -c 'cd \"/home/ubuntu/\" && mkdir -p \"target\"'",
        "sudo /bin/bash -c 'cd \"/home/ubuntu/\" && chown -R 1000:1000 target'",
        "sudo env LD_LIBRARY_PATH=/foo/bar /baz/bin/sshfs -o slave -o transform_symlinks -o allow_other -o nonempty :\"source\" \"target\""],
       [], .ok ())
    ∧ bootstrap r30 "source" "target" =
      (["snap run multipass-sshfs.env",
        "sudo env LD_LIBRARY_PATH=/foo/bar /baz/bin/sshfs -V",
        "id -u", "id -g", "pwd",
        "sudo /bin/bash -c 'P=\"/home/ubuntu/target\"; while [ ! -d \"$P/\" ]; do P=${P%/*}; done; echo $P/'",
        "sudo /bin/bash -c 'cd \"/home/ubuntu/\" && mkdir -p \"target\"'",
        "sudo /bin/bash -c 'cd \"/home/ubuntu/\" && chown -R 1000:1000 target'",
        "sudo env LD_LIBRARY_PATH=/foo/bar /baz/bin/sshfs -o slave -o transform_symlinks -o allow_other :\"source\" \"target\""],
       [], .ok ())
    ∧ hasSubstr "sudo env LD_LIBRARY_PATH=/foo/bar /baz/bin/sshfs -o slave -o transform_symlinks -o allow_other -o nonempty :\"source\" \"target\"" "-o nonempty" = true
    ∧ hasSubstr "sudo env LD_LIBRARY_PATH=/foo/bar /baz/bin/sshfs -o slave -o transform_symlinks -o allow_other :\"source\" \"target\"" "-o nonempty" = false := by
  refine ⟨?_, ?_, by decide, by decide⟩
  · rw [show ("snap run multipass-sshfs.env" : String) = envQueryCmd from rfl] at h1
    rw [show ("sudo env LD_LIBRARY_PATH=/foo/bar /baz/bin/sshfs -V" : String) =
      versionCmd "/foo/bar" "/baz" from rfl] at h2
    rw [show ("sudo /bin/bash -c 'P=\"/home/ubuntu/target\"; while [ ! -d \"$P/\" ]; do P=${P%/*}; done; echo $P/'" : String) =
      anchorCmd (absoluteTarget "/home/ubuntu\n" "target") from rfl] at h6
    rw [show ("sudo /bin/bash -c 'cd \"/home/ubuntu/\" && mkdir -p \"target\"'" : String) =
      mkdirCmd (parseAnchor "/home/ubuntu/\n")
        (relativeTo (absoluteTarget "/home/ubuntu\n" "target") (parseAnchor "/home/ubuntu/\n")) from rfl] at h7
    rw [show ("sudo /bin/bash -c 'cd \"/home/ubuntu/\" && chown -R 1000:1000 target'" : String) =
      chownCmd (parseAnchor "/home/ubuntu/\n") 1000 1000
        (relativeTo (absoluteTarget "/home/ubuntu\n" "target") (parseAnchor "/home/ubuntu/\n")) from rfl] at h8
    rw [show ("sudo env LD_LIBRARY_PATH=/foo/bar /baz/bin/sshfs -o slave -o transform_symlinks -o allow_other -o nonempty :\"source\" \"target\"" : String) =
      mountCmd "/foo/bar" "/baz" (decide (2 < 3)) "source" "target" from rfl] at h9
    exact (bootstrap_default_run r29 "FUSE library version: 2.9.0\n" o7 o8 o9 2 9 0
      h1 h2 (by decide) h3 h4 h5 h6 h7 h8 h9).trans rfl
  · rw [show ("snap run multipass-sshfs.env" : String) = envQueryCmd from rfl] at g1
    rw [show ("sudo env LD_LIBRARY_PATH=/foo/bar /baz/bin/sshfs -V" : String) =
      versionCmd "/foo/bar" "/baz" from rfl] at g2
    rw [show ("sudo /bin/bash -c 'P=\"/home/ubuntu/target\"; while [ ! -d \"$P/\" ]; do P=${P%/*}; done; echo $P/'" : String) =
      anchorCmd (absoluteTarget "/home/ubuntu\n" "target") from rfl] at g6
    rw [show ("sudo /bin/bash -c 'cd \"/home/ubuntu/\" && mkdir -p \"target\"'" : String) =
      mkdirCmd (parseAnchor "/home/ubuntu/\n")
        (relativeTo (absoluteTarget "/home/ubuntu\n" "target") (parseAnchor "/home/ubuntu/\n")) from rfl] at g7
    rw [show ("sudo /bin/bash -c 'cd \"/home/ubuntu/\" && chown -R 1000:1000 target'" : String) =
      chownCmd (parseAnchor "/home/ubuntu/\n") 1000 1000
        (relativeTo (absoluteTarget "/home/ubuntu\n" "target") (parseAnchor "/home/ubuntu/\n")) from rfl] at g8
    rw [show ("sudo env LD_LIBRARY_PATH=/foo/bar /baz/bin/sshfs -o slave -o transform_symlinks -o allow_other :\"source\" \"target\"" : String) =
      mountCmd "/foo/bar" "/baz" (decide (3 < 3)) "source" "target" from rfl] at g9
    exact (bootstrap_default_run r30 "FUSE library version: 3.0.0\n" p7 p8 p9 3 0 0
      g1 g2 (by decide) g3 g4 g5 g6 g7 g8 g9).trans rfl

/-- C2 witness: the two scenario hosts (2.9.0 and 3.0.0) exhibit the
with/without "-o nonempty" mount commands. -/
theorem mount_nonempty_iff_fuse_below_three_witness :
    bootstrap (scenarioRemote "FUSE library version: 2.9.0\n") "source" "target" =
      (["snap run multipass-sshfs.env",
        "sudo env LD_LIBRARY_PATH=/foo/bar /baz/bin/sshfs -V",
        "id -u", "id -g", "pwd",
        "sudo /bin/bash -c 'P=\"/home/ubuntu/target\"; while [ ! -d \"$P/\" ]; do P=${P%/*}; done; echo $P/'",
        "sudo /bin/bash -c 'cd \"/home/ubuntu/\" && mkdir -p \"target\"'",
        "sudo /bin/bash -c 'cd \"/home/ubuntu/\" && chown -R 1000:1000 target'",
        "sudo env LD_LIBRARY_PATH=/foo/bar /baz/bin/sshfs -o slave -o transform_symlinks -o allow_other -o nonempty :\"source\" \"target\""],
       [], .ok ())
    ∧ bootstrap (scenarioRemote "FUSE library version: 3.0.0\n") "source" "target" =
      (["snap run multipass-sshfs.env",
        "sudo env LD_LIBRARY_PATH=/foo/bar /baz/bin/sshfs -V",
        "id -u", "id -g", "pwd",
        "sudo /bin/bash -c 'P=\"/home/ubuntu/target\"; while [ ! -d \"$P/\" ]; do P=${P%/*}; done; echo $P/'",
        "sudo /bin/bash -c 'cd \"/home/ubuntu/\" && mkdir -p \"target\"'",
        "sudo /bin/bash -c 'cd \"/home/ubuntu/\" && chown -R 1000:1000 target'",
        "sudo env LD_LIBRARY_PATH=/foo/bar /baz/bin/sshfs -o slave -o transform_symlinks -o allow_other :\"source\" \"target\""],
       [], .ok ())
    ∧ hasSubstr "sudo env LD_LIBRARY_PATH=/foo/bar /baz/bin/sshfs -o slave -o transform_symlinks -o allow_other -o nonempty :\"source\" \"target\"" "-o nonempty" = true
    ∧ hasSubstr "sudo env LD_LIBRARY_PATH=/foo/bar /baz/bin/sshfs -o slave -o transform_symlinks -o allow_other :\"source\" \"target\"" "-o nonempty" = false :=
  mount_nonempty_iff_fuse_below_three
    (scenarioRemote "FUSE library version: 2.9.0\n") (scenarioRemote "FUSE library version: 3.0.0\n")
    "\n" "\n" "\n" "\n" "\n" "\n"
    rfl rfl rfl rfl rfl rfl rfl rfl rfl rfl rfl rfl rfl rfl rfl rfl rfl rfl

/-- C4: whenever the version-query output carries the "version:" token
followed by a non-empty version string with a non-numeric component
(e.g. "FUSE library version: fu.man.chu"), the bootstrap aborts with a
fatal runtime error right after the version query, issuing no further
command. -/
theorem malformed_fuse_version_aborts (r : Remote) (verOut raw : String)
    (h1 : r "snap run multipass-sshfs.env" = ⟨0, "LD_LIBRARY_PATH=/foo/bar\nSNAP=/baz\n"⟩)
    (h2 : r "sudo env LD_LIBRARY_PATH=/foo/bar /baz/bin/sshfs -V" = ⟨0, verOut⟩)
    (hmal : parseFuseVersion verOut = .malformed raw) :
    bootstrap r "source" "target" =
      (["snap run multipass-sshfs.env",
        "sudo env LD_LIBRARY_PATH=/foo/bar /baz/bin/sshfs -V"],
       [], .error (.runtimeError ("Unable to parse the FUSE library version: " ++ raw))) := by
  rw [show ("snap run multipass-sshfs.env" : String) = envQueryCmd from rfl] at h1
  rw [show ("sudo env LD_LIBRARY_PATH=/foo/bar /baz/bin/sshfs -V" : String) =
    versionCmd "/foo/bar" "/baz" from rfl] at h2
  have henv := envStage_ok r _ "/foo/bar" "/baz" h1 (by decide) (by decide)
  have hver := versionStage_of_malformed r "/foo/bar" "/baz" _ raw h2 hmal
  exact (bootstrap_version_fails r "source" "target" "/foo/bar" "/baz" _ _ [] _ henv hver).trans rfl

/-- C4 witness: the scenario host reporting "fu.man.chu" aborts with the
fatal runtime error after two commands. -/
theorem malformed_fuse_version_aborts_witness :
    bootstrap (scenarioRemote "FUSE library version: fu.man.chu\n") "source" "target" =
      (["snap run multipass-sshfs.env",
        "sudo env LD_LIBRARY_PATH=/foo/bar /baz/bin/sshfs -V"],
       [], .error (.runtimeError ("Unable to parse the FUSE library version: " ++ "fu.man.chu"))) :=
  malformed_fuse_version_aborts (scenarioRemote "FUSE library version: fu.man.chu\n")
    "FUSE library version: fu.man.chu\n" "fu.man.chu" rfl rfl (by decide)

/-- C5: a version-query output with the "version:" token but a blank
remainder does not abort the bootstrap: it logs exactly one warning
("Unable to parse the FUSE library version") plus one debug record
carrying the raw offending text, and the mount sequence completes,
treating the version as below 3 (the mount command carries
"-o nonempty"). -/
theorem blank_fuse_version_warns_and_completes (r : Remote) (o7 o8 o9 : String)
    (h1 : r "snap run multipass-sshfs.env" = ⟨0, "LD_LIBRARY_PATH=/foo/bar\nSNAP=/baz\n"⟩)
    (h2 : r "sudo env LD_LIBRARY_PATH=/foo/bar /baz/bin/sshfs -V" = ⟨0, "FUSE library version:\n"⟩)
    (h3 : r "id -u" = ⟨0, "1000\n"⟩)
    (h4 : r "id -g" = ⟨0, "1000\n"⟩)
    (h5 : r "pwd" = ⟨0, "/home/ubuntu\n"⟩)
    (h6 : r "sudo /bin/bash -c 'P=\"/home/ubuntu/target\"; while [ ! -d \"$P/\" ]; do P=${P%/*}; done; echo $P/'" = ⟨0, "/home/ubuntu/\n"⟩)
    (h7 : r "sudo /bin/bash -c 'cd \"/home/ubuntu/\" && mkdir -p \"target\"'" = ⟨0, o7⟩)
    (h8 : r "sudo /bin/bash -c 'cd \"/home/ubuntu/\" && chown -R 1000:1000 target'" = ⟨0, o8⟩)
    (h9 : r "sudo env LD_LIBRARY_PATH=/foo/bar /baz/bin/sshfs -o slave -o transform_symlinks -o allow_other -o nonempty :\"source\" \"target\"" = ⟨0, o9⟩) :
    bootstrap r "source" "target" =
      (["snap run multipass-sshfs.env",
        "sudo env LD_LIBRARY_PATH=/foo/bar /baz/bin/sshfs -V",
        "id -u", "id -g", "pwd",
        "sudo /bin/bash -c 'P=\"/home/ubuntu/target\"; while [ ! -d \"$P/\" ]; do P=${P%/*}; done; echo $P/'",
        "sudo /bin/bash -c 'cd \"/home/ubuntu/\" && mkdir -p \"target\"'",
        "sudo /bin/bash -c 'cd \"/home/ubuntu/\" && chown -R 1000:1000 target'",
        "sudo env LD_LIBRARY_PATH=/foo/bar /baz/bin/sshfs -o slave -o transform_symlinks -o allow_other -o nonempty :\"source\" \"target\""],
       [⟨.warning, "sshfs mount", "Unable to parse the FUSE library version"⟩,
        ⟨.debug, "sshfs mount", "Unable to parse the FUSE library version: FUSE library version:"⟩],
       .ok ()) := by
  rw [show ("snap run multipass-sshfs.env" : String) = envQueryCmd from rfl] at h1
  rw [show ("sudo env LD_LIBRARY_PATH=/foo/bar /baz/bin/sshfs -V" : String) =
    versionCmd "/foo/bar" "/baz" from rfl] at h2
  rw [show ("sudo /bin/bash -c 'P=\"/home/ubuntu/target\"; while [ ! -d \"$P/\" ]; do P=${P%/*}; done; echo $P/'" : String) =
    anchorCmd (absoluteTarget "/home/ubuntu\n" "target") from rfl] at h6
  rw [show ("sudo /bin/bash -c 'cd \"/home/ubuntu/\" && mkdir -p \"target\"'" : String) =
    mkdirCmd (parseAnchor "/home/ubuntu/\n")
      (relativeTo (absoluteTarget "/home/ubuntu\n" "target") (parseAnchor "/home/ubuntu/\n")) from rfl] at h7
  rw [show ("sudo /bin/bash -c 'cd \"/home/ubuntu/\" && chown -R 1000:1000 target'" : String) =
    chownCmd (parseAnchor "/home/ubuntu/\n") 1000 1000
      (relativeTo (absoluteTarget "/home/ubuntu\n" "target") (parseAnchor "/home/ubuntu/\n")) from rfl] at h8
  rw [show ("sudo env LD_LIBRARY_PATH=/foo/bar /baz/bin/sshfs -o slave -o transform_symlinks -o allow_other -o nonempty :\"source\" \"target\"" : String) =
    mountCmd "/foo/bar" "/baz" true "source" "target" from rfl] at h9
  exact (bootstrap_blank_version_run r "FUSE library version:\n" o7 o8 o9
    h1 h2 (by decide) h3 h4 h5 h6 h7 h8 h9).trans rfl

/-- C5 witness: the scenario host reporting a blank version completes
with exactly the warning/debug log pair and a "-o nonempty" mount. -/
theorem blank_fuse_version_warns_and_completes_witness :
    bootstrap (scenarioRemote "FUSE library version:\n") "source" "target" =
      (["snap run multipass-sshfs.env",
        "sudo env LD_LIBRARY_PATH=/foo/bar /baz/bin/sshfs -V",
        "id -u", "id -g", "pwd",
        "sudo /bin/bash -c 'P=\"/home/ubuntu/target\"; while [ ! -d \"$P/\" ]; do P=${P%/*}; done; echo $P/'",
        "sudo /bin/bash -c 'cd \"/home/ubuntu/\" && mkdir -p \"target\"'",
        "sudo /bin/bash -c 'cd \"/home/ubuntu/\" && chown -R 1000:1000 target'",
        "sudo env LD_LIBRARY_PATH=/foo/bar /baz/bin/sshfs -o slave -o transform_symlinks -o allow_other -o nonempty :\"source\" \"target\""],
       [⟨.warning, "sshfs mount", "Unable to parse the FUSE library version"⟩,
        ⟨.debug, "sshfs mount", "Unable to parse the FUSE library version: FUSE library version:"⟩],
       .ok ()) :=
  blank_fuse_version_warns_and_completes (scenarioRemote "FUSE library version:\n")
    "\n" "\n" "\n" rfl rfl rfl rfl rfl rfl rfl rfl rfl

/-- C6: when `id -u` or `id -g` exits 0 but prints something that is not
a pure non-negative decimal integer (e.g. "ubuntu\n"), the bootstrap
fails with an invalid-argument error naming the culprit, and the failure
happens before any directory-creation command is issued. -/
theorem nonnumeric_identity_fails_before_mkdir (r : Remote) (uidOut gidOut : String)
    (h1 : r "snap run multipass-sshfs.env" = ⟨0, "LD_LIBRARY_PATH=/foo/bar\nSNAP=/baz\n"⟩)
    (h2 : r "sudo env LD_LIBRARY_PATH=/foo/bar /baz/bin/sshfs -V" = ⟨0, "FUSE library version: 3.0.0\n"⟩) :
    ((r "id -u" = ⟨0, uidOut⟩ ∧ parseId uidOut = none) →
      bootstrap r "source" "target" =
        (["snap run multipass-sshfs.env",
          "sudo env LD_LIBRARY_PATH=/foo/bar /baz/bin/sshfs -V", "id -u"],
         [], .error (.invalidArgument ("invalid user id: " ++ uidOut)))
      ∧ ((bootstrap r "source" "target").1.all fun c => !(hasSubstr c "mkdir")) = true)
    ∧ ((r "id -u" = ⟨0, "1000\n"⟩ ∧ r "id -g" = ⟨0, gidOut⟩ ∧ parseId gidOut = none) →
      bootstrap r "source" "target" =
        (["snap run multipass-sshfs.env",
          "sudo env LD_LIBRARY_PATH=/foo/bar /baz/bin/sshfs -V", "id -u", "id -g"],
         [], .error (.invalidArgument ("invalid group id: " ++ gidOut)))
      ∧ ((bootstrap r "source" "target").1.all fun c => !(hasSubstr c "mkdir")) = true) := by
  rw [show ("snap run multipass-sshfs.env" : String) = envQueryCmd from rfl] at h1
  rw [show ("sudo env LD_LIBRARY_PATH=/foo/bar /baz/bin/sshfs -V" : String) =
    versionCmd "/foo/bar" "/baz" from rfl] at h2
  have henv := envStage_ok r _ "/foo/bar" "/baz" h1 (by decide) (by decide)
  have hver := versionStage_of_version r "/foo/bar" "/baz" _ 3 0 0 h2 (by decide)
  constructor
  · rintro ⟨hu, hup⟩
    have hid := identityStage_bad_uid r uidOut hu hup
    have hb := bootstrap_identity_fails r "source" "target" "/foo/bar" "/baz"
      (decide (3 < 3)) _ _ _ [] _ henv hver hid
    have hall : (([envQueryCmd] ++ [versionCmd "/foo/bar" "/baz"] ++ ["id -u"] : List String).all
        fun c => !(hasSubstr c "mkdir")) = true := by decide
    refine ⟨hb.trans rfl, ?_⟩
    rw [hb]
    exact hall
  · rintro ⟨hu, hg, hgp⟩
    have hid := identityStage_bad_gid r "1000\n" gidOut 1000 hu (by decide) hg hgp
    have hb := bootstrap_identity_fails r "source" "target" "/foo/bar" "/baz"
      (decide (3 < 3)) _ _ _ [] _ henv hver hid
    have hall : (([envQueryCmd] ++ [versionCmd "/foo/bar" "/baz"] ++ ["id -u", "id -g"] : List String).all
        fun c => !(hasSubstr c "mkdir")) = true := by decide
    refine ⟨hb.trans rfl, ?_⟩
    rw [hb]
    exact hall

/-- C6 witness: a host whose `id -u` prints "ubuntu" and a host whose
`id -g` prints "ubuntu" each fail with invalid-argument before any
mkdir. -/
theorem nonnumeric_identity_fails_before_mkdir_witness :
    (bootstrap badUidRemote "source" "target" =
      (["snap run multipass-sshfs.env",
        "sudo env LD_LIBRARY_PATH=/foo/bar /baz/bin/sshfs -V", "id -u"],
       [], .error (.invalidArgument ("invalid user id: " ++ "ubuntu\n")))
      ∧ ((bootstrap badUidRemote "source" "target").1.all fun c => !(hasSubstr c "mkdir")) = true)
    ∧ (bootstrap badGidRemote "source" "target" =
      (["snap run multipass-sshfs.env",
        "sudo env LD_LIBRARY_PATH=/foo/bar /baz/bin/sshfs -V", "id -u", "id -g"],
       [], .error (.invalidArgument ("invalid group id: " ++ "ubuntu\n")))
      ∧ ((bootstrap badGidRemote "source" "target").1.all fun c => !(hasSubstr c "mkdir")) = true) :=
  ⟨(nonnumeric_identity_fails_before_mkdir badUidRemote "ubuntu\n" "ubuntu\n" rfl rfl).1
      ⟨rfl, by decide⟩,
   (nonnumeric_identity_fails_before_mkdir badGidRemote "ubuntu\n" "ubuntu\n" rfl rfl).2
      ⟨rfl, rfl, by decide⟩⟩

/-- C7: when the mkdir stage's remote command exits nonzero, the
bootstrap fails with a runtime error naming the mkdir stage, and neither
the chown command nor the final mount command is issued afterwards. -/
theorem mkdir_failure_stops_sequence (r : Remote) (res : RemoteResult)
    (h1 : r "snap run multipass-sshfs.env" = ⟨0, "LD_LIBRARY_PATH=/foo/bar\nSNAP=/baz\n"⟩)
    (h2 : r "sudo env LD_LIBRARY_PATH=/foo/bar /baz/bin/sshfs -V" = ⟨0, "FUSE library version: 3.0.0\n"⟩)
    (h3 : r "id -u" = ⟨0, "1000\n"⟩)
    (h4 : r "id -g" = ⟨0, "1000\n"⟩)
    (h5 : r "pwd" = ⟨0, "/home/ubuntu\n"⟩)
    (h6 : r "sudo /bin/bash -c 'P=\"/home/ubuntu/target\"; while [ ! -d \"$P/\" ]; do P=${P%/*}; done; echo $P/'" = ⟨0, "/home/ubuntu/\n"⟩)
    (h7 : r "sudo /bin/bash -c 'cd \"/home/ubuntu/\" && mkdir -p \"target\"'" = res)
    (hne : res.exitStatus ≠ 0) :
    bootstrap r "source" "target" =
      (["snap run multipass-sshfs.env",
        "sudo env LD_LIBRARY_PATH=/foo/bar /baz/bin/sshfs -V",
        "id -u", "id -g", "pwd",
        "sudo /bin/bash -c 'P=\"/home/ubuntu/target\"; while [ ! -d \"$P/\" ]; do P=${P%/*}; done; echo $P/'",
        "sudo /bin/bash -c 'cd \"/home/ubuntu/\" && mkdir -p \"target\"'"],
       [], .error (.runtimeError "mkdir"))
    ∧ ((bootstrap r "source" "target").1.all
        fun c => !(hasSubstr c "chown") && !(hasSubstr c "-o slave")) = true := by
  rw [show ("snap run multipass-sshfs.env" : String) = envQueryCmd from rfl] at h1
  rw [show ("sudo env LD_LIBRARY_PATH=/foo/bar /baz/bin/sshfs -V" : String) =
    versionCmd "/foo/bar" "/baz" from rfl] at h2
  rw [show ("sudo /bin/bash -c 'P=\"/home/ubuntu/target\"; while [ ! -d \"$P/\" ]; do P=${P%/*}; done; echo $P/'" : String) =
    anchorCmd (absoluteTarget "/home/ubuntu\n" "target") from rfl] at h6
  rw [show ("sudo /bin/bash -c 'cd \"/home/ubuntu/\" && mkdir -p \"target\"'" : String) =
    mkdirCmd (parseAnchor "/home/ubuntu/\n")
      (relativeTo (absoluteTarget "/home/ubuntu\n" "target") (parseAnchor "/home/ubuntu/\n")) from rfl] at h7
  have henv := envStage_ok r _ "/foo/bar" "/baz" h1 (by decide) (by decide)
  have hver := versionStage_of_version r "/foo/bar" "/baz" _ 3 0 0 h2 (by decide)
  have hid := identityStage_ok r _ _ 1000 1000 h3 h4 (by decide) (by decide)
  have hpath := pathStage_ok r "target" _ _ h5 h6
  have hdir := dirStage_mkdir_fails r (parseAnchor "/home/ubuntu/\n")
    (relativeTo (absoluteTarget "/home/ubuntu\n" "target") (parseAnchor "/home/ubuntu/\n"))
    1000 1000 res h7 hne
  have hb := bootstrap_dir_fails r "source" "target" "/foo/bar" "/baz"
    (parseAnchor "/home/ubuntu/\n") (absoluteTarget "/home/ubuntu\n" "target")
    (decide (3 < 3)) 1000 1000 _ _ _ _ _ [] _ henv hver hid hpath hdir
  refine ⟨hb.trans rfl, ?_⟩
  rw [hb]
  decide

/-- C7 witness: the scenario host with a failing mkdir aborts after the
mkdir command, never issuing chown or the mount helper invocation. -/
theorem mkdir_failure_stops_sequence_witness :
    bootstrap mkdirFailRemote "source" "target" =
      (["snap run multipass-sshfs.env",
        "sudo env LD_LIBRARY_PATH=/foo/bar /baz/bin/sshfs -V",
        "id -u", "id -g", "pwd",
        "sudo /bin/bash -c 'P=\"/home/ubuntu/target\"; while [ ! -d \"$P/\" ]; do P=${P%/*}; done; echo $P/'",
        "sudo /bin/bash -c 'cd \"/home/ubuntu/\" && mkdir -p \"target\"'"],
       [], .error (.runtimeError "mkdir"))
    ∧ ((bootstrap mkdirFailRemote "source" "target").1.all
        fun c => !(hasSubstr c "chown") && !(hasSubstr c "-o slave")) = true :=
  mkdir_failure_stops_sequence mkdirFailRemote ⟨1, "\n"⟩
    rfl rfl rfl rfl rfl rfl rfl (by decide)

/-! ### Lifecycle lemmas -/

theorem lifecycleStep_returned (e : Option LifecycleEvent) :
    lifecycleStep .returned e = .returned := by
  cases e with
  | none => rfl
  | some ev => cases ev <;> rfl

theorem foldl_lifecycleStep_returned (l : List (Option LifecycleEvent)) :
    l.foldl lifecycleStep .returned = .returned := by
  induction l with
  | nil => rfl
  | cons e t ih =>
    rw [List.foldl_cons, lifecycleStep_returned]
    exact ih

theorem foldl_lifecycleStep_all_none (l : List (Option LifecycleEvent))
    (h : ∀ e ∈ l, e = none) :
    l.foldl lifecycleStep .waiting = .waiting := by
  induction l with
  | nil => rfl
  | cons e t ih =>
    have he : e = none := h e (List.mem_cons_self e t)
    rw [List.foldl_cons, he]
    exact ih fun x hx => h x (List.mem_cons_of_mem e hx)

/-- C9: after a successful mount the lifecycle wait blocks the caller:
as long as no signal arrives the wait stays in the blocking state, and
when the remote session-end signal arrives the wait moves to the
released state (which it keeps), returning control cleanly — the wait
has no error outcome at all. -/
theorem lifecycle_wait_blocks_until_session_end :
    (∀ evs, (∀ e ∈ evs, e = none) → lifecycleRun evs = .waiting)
    ∧ (∀ pre post, (∀ e ∈ pre, e = none) →
        lifecycleRun (pre ++ some .sessionEnd :: post) = .returned) := by
  constructor
  · exact fun evs h => foldl_lifecycleStep_all_none evs h
  · intro pre post h
    unfold lifecycleRun
    rw [List.foldl_append, foldl_lifecycleStep_all_none pre h, List.foldl_cons]
    exact foldl_lifecycleStep_returned post

/-- C9 witness: with no signal for two steps the wait still blocks; a
session-end signal after one idle step releases it. -/
theorem lifecycle_wait_blocks_until_session_end_witness :
    lifecycleRun [none, none] = .waiting
    ∧ lifecycleRun ([none] ++ some .sessionEnd :: [none]) = .returned :=
  ⟨lifecycle_wait_blocks_until_session_end.1 [none, none] (by decide),
   lifecycle_wait_blocks_until_session_end.2 [none] [none] (by decide)⟩

/-! ### Installation claims -/

/-- C8: when the snap install command does not complete within the
installation timeout, install_sshfs_for returns without an error and
emits exactly one info-level log record (component "utils", message
"Timeout while installing 'sshfs' in '<instance>'"). -/
theorem install_timeout_logs_info_and_returns (name : String) (r : String → ExecOutcome)
    (h1 : r "which snap" = .exited 0) (h2 : r "[ -e /snap ]" = .exited 0)
    (h3 : r "sudo snap install multipass-sshfs" = .timedOut) :
    install_sshfs_for name r =
      (["which snap", "[ -e /snap ]", "sudo snap install multipass-sshfs"],
       [⟨.info, "utils", "Timeout while installing 'sshfs' in '" ++ name ++ "'"⟩], none) := by
  simp only [install_sshfs_for, h1, h2, h3]
  rfl

/-- C8 witness: the timing-out host yields the single info record and no
error for instance name "foo". -/
theorem install_timeout_logs_info_and_returns_witness :
    install_sshfs_for "foo" snapInstallTimeoutRemote =
      (["which snap", "[ -e /snap ]", "sudo snap install multipass-sshfs"],
       [⟨.info, "utils", "Timeout while installing 'sshfs' in 'foo'"⟩], none) :=
  (install_timeout_logs_info_and_returns "foo" snapInstallTimeoutRemote rfl rfl rfl).trans rfl

/-- C3 counterexample: on a host whose `which snap` probe exits nonzero,
the installation flow fails with a generic runtime error and NOT with
the distinct helper-missing error, contradicting the claim that any
failing installation step yields SSHFSMissingError. -/
theorem which_snap_failure_not_helper_missing :
    (install_sshfs_for "foo" whichSnapFailRemote).2.2 =
      some (.runtimeError ("Snap support is not installed in " ++ "foo"))
    ∧ (install_sshfs_for "foo" whichSnapFailRemote).2.2 ≠ some .sshfsMissing := by
  decide

/-- C3 (amended): the distinct helper-missing error (SSHFSMissingError)
arises exactly from the `sudo snap install multipass-sshfs` step failing;
failing probe steps (`which snap`, `[ -e /snap ]`) raise generic runtime
errors instead. -/
theorem install_error_type_per_step (name : String) (r : String → ExecOutcome) :
    (∀ c, r "which snap" = .exited c → c ≠ 0 →
      (install_sshfs_for name r).2.2 =
        some (.runtimeError ("Snap support is not installed in " ++ name)))
    ∧ (∀ c, r "which snap" = .exited 0 → r "[ -e /snap ]" = .exited c → c ≠ 0 →
      (install_sshfs_for name r).2.2 =
        some (.runtimeError ("Classic snap support is not enabled in " ++ name)))
    ∧ (∀ c, r "which snap" = .exited 0 → r "[ -e /snap ]" = .exited 0 →
        r "sudo snap install multipass-sshfs" = .exited c → c ≠ 0 →
      (install_sshfs_for name r).2.2 = some .sshfsMissing) := by
  refine ⟨?_, ?_, ?_⟩
  · intro c h hc
    simp [install_sshfs_for, h, hc]
  · intro c h1 h2 hc
    simp [install_sshfs_for, h1, h2, hc]
  · intro c h1 h2 h3 hc
    simp [install_sshfs_for, h1, h2, h3, hc]

/-- C3 amended witness: each failing step shows its error type on a
concrete host. -/
theorem install_error_type_per_step_witness :
    (install_sshfs_for "foo" whichSnapFailRemote).2.2 =
      some (.runtimeError ("Snap support is not installed in " ++ "foo"))
    ∧ (install_sshfs_for "foo" snapDirFailRemote).2.2 =
      some (.runtimeError ("Classic snap support is not enabled in " ++ "foo"))
    ∧ (install_sshfs_for "foo" snapInstallFailRemote).2.2 = some .sshfsMissing :=
  ⟨(install_error_type_per_step "foo" whichSnapFailRemote).1 1 rfl (by decide),
   (install_error_type_per_step "foo" snapDirFailRemote).2.1 1 rfl rfl (by decide),
   (install_error_type_per_step "foo" snapInstallFailRemote).2.2 1 rfl rfl rfl (by decide)⟩

/-- C10: the three installation steps map to different outcomes: a
nonzero exit of `which snap` or `[ -e /snap ]` is a generic runtime
error, only a nonzero exit of `sudo snap install multipass-sshfs` is the
distinct helper-missing error, and when all three steps succeed
install_sshfs_for reports no error. -/
theorem install_step_outcome_mapping (name : String) (r : String → ExecOutcome) :
    (∀ c, r "which snap" = .exited c → c ≠ 0 →
      install_sshfs_for name r =
        (["which snap"], [],
         some (.runtimeError ("Snap support is not installed in " ++ name))))
    ∧ (∀ c, r "which snap" = .exited 0 → r "[ -e /snap ]" = .exited c → c ≠ 0 →
      install_sshfs_for name r =
        (["which snap", "[ -e /snap ]"], [],
         some (.runtimeError ("Classic snap support is not enabled in " ++ name))))
    ∧ (∀ c, r "which snap" = .exited 0 → r "[ -e /snap ]" = .exited 0 →
        r "sudo snap install multipass-sshfs" = .exited c → c ≠ 0 →
      install_sshfs_for name r =
        (["which snap", "[ -e /snap ]", "sudo snap install multipass-sshfs"], [],
         some .sshfsMissing))
    ∧ (r "which snap" = .exited 0 → r "[ -e /snap ]" = .exited 0 →
        r "sudo snap install multipass-sshfs" = .exited 0 →
      install_sshfs_for name r =
        (["which snap", "[ -e /snap ]", "sudo snap install multipass-sshfs"], [], none)) := by
  refine ⟨?_, ?_, ?_, ?_⟩
  · intro c h hc
    simp [install_sshfs_for, h, hc]
  · intro c h1 h2 hc
    simp [install_sshfs_for, h1, h2, hc]
  · intro c h1 h2 h3 hc
    simp [install_sshfs_for, h1, h2, h3, hc]
  · intro h1 h2 h3
    simp [install_sshfs_for, h1, h2, h3]

/-- C10 witness: the four outcome shapes on four concrete hosts. -/
theorem install_step_outcome_mapping_witness :
    install_sshfs_for "foo" whichSnapFailRemote =
      (["which snap"], [], some (.runtimeError ("Snap support is not installed in " ++ "foo")))
    ∧ install_sshfs_for "foo" snapDirFailRemote =
      (["which snap", "[ -e /snap ]"], [],
       some (.runtimeError ("Classic snap support is not enabled in " ++ "foo")))
    ∧ install_sshfs_for "foo" snapInstallFailRemote =
      (["which snap", "[ -e /snap ]", "sudo snap install multipass-sshfs"], [],
       some .sshfsMissing)
    ∧ install_sshfs_for "foo" installOkRemote =
      (["which snap", "[ -e /snap ]", "sudo snap install multipass-sshfs"], [], none) :=
  ⟨(install_step_outcome_mapping "foo" whichSnapFailRemote).1 1 rfl (by decide),
   (install_step_outcome_mapping "foo" snapDirFailRemote).2.1 1 rfl rfl (by decide),
   (install_step_outcome_mapping "foo" snapInstallFailRemote).2.2.1 1 rfl rfl rfl (by decide),
   (install_step_outcome_mapping "foo" installOkRemote).2.2.2 rfl rfl rfl⟩

/-! ### Parser sanity checks on the concrete outputs the tests use -/

example : parseFuseVersion "FUSE library version: 3.0.0\n" = .version 3 0 0 := by decide
example : parseFuseVersion "FUSE library version: 2.9.0\n" = .version 2 9 0 := by decide
example : parseFuseVersion "FUSE library version: fu.man.chu\n" = .malformed "fu.man.chu" := by decide
example : parseFuseVersion "FUSE library version:\n" = .blank := by decide
example : parseFuseVersion "no such token here\n" = .noToken := by decide
example : parseId "1000\n" = some 1000 := by decide
example : parseId "ubuntu\n" = none := by decide
example : parseAnchor "/home/ubuntu\n" = "/home/ubuntu/" := by decide
example : parseAnchor "/home/ubuntu/\n" = "/home/ubuntu/" := by decide
example : envLookup "LD_LIBRARY_PATH=/foo/bar\nSNAP=/baz\n" "SNAP" = some "/baz" := by decide
example : envLookup "LD_LIBRARY_PATH=/foo/bar\nSNAP=/baz\n" "LD_LIBRARY_PATH" = some "/foo/bar" := by decide
example : hasSubstr "a -o nonempty b" "-o nonempty" = true := by decide
example : hasSubstr "a -o non b" "-o nonempty" = false := by decide
example : chownCmd "/home/ubuntu/" 1000 1000 "target" =
    "sudo /bin/bash -c 'cd \"/home/ubuntu/\" && chown -R 1000:1000 target'" := by decide

end Multipass
